import Mathlib

/-!
Verification development for the Water-Monitor integration.

Numbers are modelled as exact rationals (`ℚ`) standing for Python floats,
timestamps as rationals counting seconds, and Python `int` values as `ℤ`.
Python `int(x)` truncation and `round(x, n)` banker's rounding are modelled
explicitly.  Each component of the source is embedded as a pure state-passing
function that mirrors the statement order of the Python method it models.
-/

namespace WaterMonitor

/-- Python `int(x)` on a float/rational: truncation toward zero. -/
def pyInt (q : ℚ) : ℤ := q.num.tdiv (q.den : ℤ)

/-- Python `round(x)` to an integer: round half to even (banker's rounding). -/
def pyRoundHalfEven (q : ℚ) : ℤ :=
  let f : ℤ := ⌊q⌋
  let r : ℚ := q - (f : ℚ)
  if r < 1/2 then f
  else if r > 1/2 then f + 1
  else if f % 2 = 0 then f else f + 1

/-- Python `round(x, n)` for `n` decimal digits (banker's rounding). -/
def pyRoundTo (q : ℚ) (n : ℕ) : ℚ :=
  (pyRoundHalfEven (q * (10 ^ n : ℚ)) : ℚ) / (10 ^ n : ℚ)

/-! ## WaterSessionTracker (water_session_tracker.py) -/

/-- Completed session record (`WaterSession` dataclass). -/
structure WaterSession where
  start_time : ℚ
  end_time : ℚ
  duration : ℤ
  volume : ℚ
  hot_water_duration : ℤ
  gapped_sessions : ℕ
  average_flow : ℚ
deriving Repr, DecidableEq

/-- Constructor parameters of `WaterSessionTracker`. -/
structure TrackerConfig where
  min_session_volume : ℚ
  min_session_duration : ℤ
  session_gap_tolerance : ℚ
  session_continuity_window : ℚ
deriving Repr, DecidableEq

/-- Mutable fields of `WaterSessionTracker`. -/
structure TrackerState where
  flow_rate : ℚ := 0
  volume_total : ℚ := 0
  hot_water_active : Bool := false
  prev_flow_rate : ℚ := 0
  prev_hot_water_active : Bool := false
  prev_session_active : Bool := false
  prev_gap_active : Bool := false
  session_active : Bool := false
  gap_active : Bool := false
  original_session_start : Option ℚ := none
  current_session_start : Option ℚ := none
  session_start_volume : ℚ := 0
  gapped_sessions_count : ℕ := 0
  last_update_ts : Option ℚ := none
  current_session_duration_secs : ℤ := 0
  current_hot_water_duration_secs : ℤ := 0
  intermediate_exists : Bool := false
  intermediate_start : Option ℚ := none
  intermediate_duration : ℤ := 0
  intermediate_volume : ℚ := 0
  intermediate_hot_water_duration : ℤ := 0
  session_end_candidate_time : Option ℚ := none
  last_session : Option WaterSession := none
deriving Repr, DecidableEq

/-- The freshly constructed tracker. -/
def initialTrackerState : TrackerState := {}

/-- `_accumulate_time`: charge the elapsed interval to the previous flags. -/
def accumulateTime (s : TrackerState) (ts : ℚ) : TrackerState :=
  match s.last_update_ts with
  | none => { s with last_update_ts := some ts }
  | some t0 =>
    let delta0 : ℤ := pyInt (ts - t0)
    let delta : ℤ := if delta0 < 0 then 0 else delta0
    { s with
      current_session_duration_secs :=
        s.current_session_duration_secs +
          (if s.prev_session_active = true then delta else 0),
      current_hot_water_duration_secs :=
        s.current_hot_water_duration_secs +
          (if s.prev_session_active = true ∧ s.prev_hot_water_active = true then delta else 0),
      last_update_ts := some ts }

/-- `update` body, clamping and storing the new sample values. -/
def readSample (s : TrackerState) (flow_rate volume_total : ℚ) (hot : Bool) : TrackerState :=
  { s with
    flow_rate := max 0 flow_rate,
    volume_total := max 0 volume_total,
    hot_water_active := hot }

/-- `update` body: "Start session if flow > 0 and not currently active". -/
def startPhase (ts : ℚ) (s : TrackerState) : TrackerState :=
  if s.flow_rate > 0 ∧ s.session_active = false then
    { s with
      session_active := true,
      gap_active := false,
      original_session_start := some ts,
      current_session_start := some ts,
      session_start_volume := s.volume_total,
      intermediate_exists := false,
      intermediate_start := none,
      intermediate_duration := 0,
      intermediate_volume := 0,
      intermediate_hot_water_duration := 0,
      gapped_sessions_count := 0,
      session_end_candidate_time := none,
      current_session_duration_secs := 0,
      current_hot_water_duration_secs := 0 }
  else s

/-- `update` body: "If session active and flow is zero, we may be in a gap".
The already-in-gap branch only compares against the gap tolerance and does
nothing (`pass` in the source). -/
def gapPhase (ts : ℚ) (s : TrackerState) : TrackerState :=
  if s.session_active = true ∧ s.flow_rate = 0 then
    if s.gap_active = false then
      let s1 := { s with gap_active := true }
      let s2 :=
        match s1.current_session_start with
        | some _ =>
          { s1 with
            intermediate_exists := true,
            intermediate_start := s1.current_session_start,
            intermediate_duration := s1.current_session_duration_secs,
            intermediate_volume := max 0 (s1.volume_total - s1.session_start_volume),
            intermediate_hot_water_duration := s1.current_hot_water_duration_secs }
        | none => s1
      { s2 with session_end_candidate_time := some ts }
    else s
  else s

/-- `update` body: "If flow resumes during a gap". -/
def resumePhase (s : TrackerState) : TrackerState :=
  if s.session_active = true ∧ s.flow_rate > 0 ∧ s.gap_active = true then
    { s with
      gap_active := false,
      gapped_sessions_count := s.gapped_sessions_count + 1,
      session_end_candidate_time := none }
  else s

/-- `update` body: finalize once no-flow has persisted for the continuity
window since the gap candidate time. -/
def finalizePhase (cfg : TrackerConfig) (ts : ℚ) (s : TrackerState) : TrackerState :=
  match s.session_end_candidate_time with
  | none => s
  | some tc =>
    if s.session_active = true ∧ s.flow_rate = 0 ∧
        ts - tc ≥ cfg.session_continuity_window then
      let start : ℚ := s.current_session_start.getD ts
      let dur : ℤ := pyInt (ts - start)
      let vol : ℚ := max 0 (s.volume_total - s.session_start_volume)
      let avg : ℚ := if dur > 0 then vol / (dur : ℚ) * 60 else 0
      let sess : WaterSession :=
        ⟨start, ts, dur, vol, s.current_hot_water_duration_secs,
          s.gapped_sessions_count, avg⟩
      { s with
        last_session :=
          if vol ≥ cfg.min_session_volume ∧ dur ≥ cfg.min_session_duration then
            some sess
          else s.last_session,
        session_active := false,
        gap_active := false,
        original_session_start := none,
        current_session_start := none,
        session_start_volume := 0,
        gapped_sessions_count := 0,
        intermediate_exists := false,
        intermediate_start := none,
        intermediate_duration := 0,
        intermediate_volume := 0,
        intermediate_hot_water_duration := 0,
        session_end_candidate_time := none,
        current_session_duration_secs := 0,
        current_hot_water_duration_secs := 0 }
    else s

/-- End of `update`: "Cache previous flags for next update". -/
def cachePrev (s : TrackerState) : TrackerState :=
  { s with
    prev_flow_rate := s.flow_rate,
    prev_session_active := s.session_active,
    prev_gap_active := s.gap_active,
    prev_hot_water_active := s.hot_water_active }

/-- `WaterSessionTracker.update`, composed in source statement order. -/
def trackerUpdate (cfg : TrackerConfig) (s : TrackerState)
    (flow_rate volume_total : ℚ) (hot : Bool) (ts : ℚ) : TrackerState :=
  cachePrev (finalizePhase cfg ts
    (resumePhase (gapPhase ts
      (startPhase ts (readSample (accumulateTime s ts) flow_rate volume_total hot)))))

/-- The `debug_state` tag in the returned snapshot. -/
def debugState (s : TrackerState) : String :=
  if s.session_active = true then "ACTIVE"
  else if s.gap_active = true then "GAP" else "IDLE"

/-- Fold a list of samples `(flow, volume, hot, ts)` through the tracker. -/
def runTracker (cfg : TrackerConfig) (s : TrackerState)
    (events : List (ℚ × ℚ × Bool × ℚ)) : TrackerState :=
  events.foldl (fun st e => trackerUpdate cfg st e.1 e.2.1 e.2.2.1 e.2.2.2) s

/-- The elapsed-seconds delta that `_accumulate_time` computes (0 on the very
first update, otherwise the truncated difference clamped at 0). -/
def accDelta (s : TrackerState) (ts : ℚ) : ℤ :=
  match s.last_update_ts with
  | none => 0
  | some t0 =>
    let d := pyInt (ts - t0)
    if d < 0 then 0 else d

/-- Config for the C1/C2/C8/C9 concrete tracker runs: no minimum filters,
gap tolerance 5 s, continuity window 3 s. -/
def cfgC1 : TrackerConfig := ⟨0, 0, 5, 3⟩

/-- Tracker state after a session start at t=0, a sub-second-cadence sample at
t=0.9, and a flow stop at t=1.8 (so a gap is in progress with candidate time
1.8 and the accumulated duration counter is still 0). -/
def sC1 : TrackerState :=
  runTracker cfgC1 initialTrackerState
    [(1, 0, false, 0), (1, 1, false, 9/10), (0, 1, false, 9/5)]

/-- Invariant of the tracker: a gap is only ever in progress while a session
is open. -/
def GapImpActive (s : TrackerState) : Prop :=
  s.gap_active = true → s.session_active = true

/-! ## LowFlowLeakBinarySensor (binary_sensor.py) -/

/-- `COUNTING_MODE_NONZERO` from const.py. -/
def COUNTING_MODE_NONZERO : String := "nonzero_wallclock"

/-- Constructor parameters of `LowFlowLeakBinarySensor`. -/
structure LowFlowConfig where
  max_low_flow : ℚ
  seed_s : ℤ
  min_s : ℤ
  clear_idle_s : ℤ
  counting_mode : String
  smoothing_s : ℤ
  cooldown_s : ℤ
  clear_on_high_s : Option ℤ
  baseline_margin_pct : ℚ
deriving Repr, DecidableEq

/-- Runtime counters of `LowFlowLeakBinarySensor`. -/
structure LowFlowState where
  is_on : Bool := false
  seeded : Bool := false
  seed_progress : ℚ := 0
  count_progress : ℚ := 0
  idle_zero_s : ℚ := 0
  high_flow_s : ℚ := 0
  last_update : Option ℚ := none
  cooldown_until : Option ℚ := none
  tick_interval_s : ℤ := 5
  recent_counting_hysteresis_s : ℚ := 0
deriving Repr, DecidableEq

/-- State right after `async_added_to_hass`: `_last_update = now`. -/
def lowFlowStart (now : ℚ) : LowFlowState := { last_update := some now }

/-- The `dt` computed at the top of `_evaluate` (clamped at 0; 0 when
`_last_update` is unset, since the source then sets it to `now`). -/
def dtOf (s : LowFlowState) (now : ℚ) : ℚ :=
  let lastUpd := s.last_update.getD now
  let d := now - lastUpd
  if d < 0 then 0 else d

/-- "Counting activity by mode" in `_evaluate`: `nonzero_wallclock` counts any
positive flow; the other modes count only in-range flow. -/
def countingActive (cfg : LowFlowConfig) (flow : ℚ) : Bool :=
  if cfg.counting_mode = COUNTING_MODE_NONZERO then decide (flow > 0)
  else decide (flow > 0 ∧ (cfg.max_low_flow ≤ 0 ∨ flow ≤ cfg.max_low_flow))

/-- Python truthiness of `self._clear_on_high_s` (None and 0 are falsy). -/
def cohActive (cfg : LowFlowConfig) : Bool :=
  match cfg.clear_on_high_s with
  | none => false
  | some k => decide (k ≠ 0)

/-- `_evaluate`: "Seed and count progression" block. -/
def lowFlowProgress (cfg : LowFlowConfig) (s : LowFlowState) (dt flow : ℚ) :
    LowFlowState :=
  let coh := cohActive cfg
  if countingActive cfg flow = true then
    let s1 := { s with idle_zero_s := 0 }
    let s2 := { s1 with high_flow_s :=
      if coh = true ∧ cfg.max_low_flow > 0 ∧ flow > cfg.max_low_flow then
        s1.high_flow_s + dt else 0 }
    if s2.seeded = false then
      let sp := s2.seed_progress + dt
      if cfg.seed_s = 0 ∨ sp ≥ (cfg.seed_s : ℚ) then
        { s2 with seed_progress := sp, seeded := true, count_progress := 0 }
      else { s2 with seed_progress := sp }
    else { s2 with count_progress := s2.count_progress + dt }
  else
    let s1 := { s with idle_zero_s := if flow ≤ 0 then s.idle_zero_s + dt else 0 }
    let s2 := { s1 with high_flow_s :=
      if coh = true ∧ cfg.max_low_flow > 0 ∧ flow > cfg.max_low_flow then
        s1.high_flow_s + dt else 0 }
    if s2.seeded = false then { s2 with seed_progress := 0 }
    else { s2 with count_progress := 0 }

/-- `_evaluate`: "Adjust cadence with brief hysteresis" block (`ca` and the
hysteresis test read the pre-block state, as in the source). -/
def lowFlowCadence (s : LowFlowState) (dt : ℚ) (ca : Bool) : LowFlowState :=
  let desired : ℤ :=
    if ca = true ∨ s.is_on = true then 1
    else if s.recent_counting_hysteresis_s > 0 ∧
        max 0 (s.recent_counting_hysteresis_s - dt) > 0 then 1
    else 5
  let s1 :=
    if ca = true then { s with recent_counting_hysteresis_s := 3 }
    else if s.recent_counting_hysteresis_s > 0 then
      { s with recent_counting_hysteresis_s := max 0 (s.recent_counting_hysteresis_s - dt) }
    else s
  if desired ≠ s1.tick_interval_s then { s1 with tick_interval_s := desired } else s1

/-- `_evaluate`: "Clear conditions" block. -/
def lowFlowClear (cfg : LowFlowConfig) (s : LowFlowState) (now : ℚ) : LowFlowState :=
  if s.is_on = true then
    if cfg.clear_idle_s > 0 ∧ s.idle_zero_s ≥ (cfg.clear_idle_s : ℚ) then
      let s1 := { s with is_on := false }
      if cfg.cooldown_s > 0 then
        { s1 with cooldown_until := some (now + (cfg.cooldown_s : ℚ)) }
      else s1
    else if cohActive cfg = true ∧
        s.high_flow_s ≥ ((cfg.clear_on_high_s.getD 0 : ℤ) : ℚ) then
      let s1 := { s with is_on := false }
      if cfg.cooldown_s > 0 then
        { s1 with cooldown_until := some (now + (cfg.cooldown_s : ℚ)) }
      else s1
    else s
  else s

/-- `_evaluate`: "Trigger condition" block. -/
def lowFlowTrigger (cfg : LowFlowConfig) (s : LowFlowState) (now : ℚ) : LowFlowState :=
  let can_trigger : Bool :=
    match s.cooldown_until with
    | none => true
    | some c => decide (now ≥ c)
  if s.is_on = false ∧ can_trigger = true ∧ s.seeded = true ∧
      s.count_progress ≥ (cfg.min_s : ℚ) then
    { s with is_on := true }
  else s

/-- `LowFlowLeakBinarySensor._evaluate` with the flow reading already
resolved (`none` stands for an unavailable sensor, treated as zero flow),
composed in source statement order. -/
def lowFlowEvaluate (cfg : LowFlowConfig) (s : LowFlowState) (now : ℚ)
    (flowOpt : Option ℚ) : LowFlowState :=
  let dt := dtOf s now
  let flow := flowOpt.getD 0
  let s1 := lowFlowProgress cfg s dt flow
  let s2 := lowFlowCadence s1 dt (countingActive cfg flow)
  let s3 := lowFlowClear cfg s2 now
  let s4 := lowFlowTrigger cfg s3 now
  { s4 with last_update := some now }

/-- Fold a list of `(now, flow)` evaluations through the detector. -/
def runLowFlow (cfg : LowFlowConfig) (s : LowFlowState)
    (ticks : List (ℚ × Option ℚ)) : LowFlowState :=
  ticks.foldl (fun st e => lowFlowEvaluate cfg st e.1 e.2) s

/-- Config for the C3 concrete run: nonzero counting, seed 2 s, trigger after
3 s of counting, clear after 1 s idle, no cooldown. -/
def cfgC3 : LowFlowConfig := ⟨1/2, 2, 3, 1, COUNTING_MODE_NONZERO, 0, 0, none, 10⟩

/-- Detector state after the first episode triggered (t=1..5, flow 1) and one
zero-flow tick at t=6 cleared it back to idle. -/
def sC3cleared : LowFlowState :=
  runLowFlow cfgC3 (lowFlowStart 0)
    [(1, some 1), (2, some 1), (3, some 1), (4, some 1), (5, some 1), (6, some 0)]

/-! ## TankRefillLeakBinarySensor (binary_sensor.py) -/

/-- Constructor parameters of `TankRefillLeakBinarySensor`. -/
structure TankConfig where
  min_volume : ℚ
  max_volume : ℚ
  tol_pct : ℚ
  repeat_count : ℤ
  window_s : ℚ
  clear_idle_s : ℚ
  cooldown_s : ℚ
  min_duration_s : ℤ
  max_duration_s : ℤ
deriving Repr, DecidableEq

/-- An entry of the `(ts, volume, duration)` event memory. -/
structure TankEvent where
  ts : ℚ
  volume : ℚ
  duration : ℤ
deriving Repr, DecidableEq

/-- Mutable fields of `TankRefillLeakBinarySensor`. -/
structure TankState where
  is_on : Bool := false
  history : List TankEvent := []
  last_event_ts : Option ℚ := none
  cooldown_until : Option ℚ := none
  last_seen_pair : Option (ℚ × ℤ) := none
deriving Repr, DecidableEq

/-- The freshly constructed tank-refill detector. -/
def initialTankState : TankState := {}

/-- The candidate-refill gate of `_evaluate`: duration within the (optional)
bounds, volume at least `min_volume` and within the (optional) maximum. -/
abbrev tankGate (cfg : TankConfig) (vol : ℚ) (dur : ℤ) : Prop :=
  (¬(cfg.min_duration_s > 0 ∧ dur < cfg.min_duration_s) ∧
    ¬(cfg.max_duration_s > 0 ∧ dur > cfg.max_duration_s)) ∧
  vol ≥ cfg.min_volume ∧ (cfg.max_volume ≤ 0 ∨ vol ≤ cfg.max_volume)

/-- `_evaluate`: "Only record when the pair changes" plus the duration and
volume gates. -/
def tankRecord (cfg : TankConfig) (s : TankState) (now vol : ℚ) (dur : ℤ) :
    TankState :=
  if s.last_seen_pair ≠ some (vol, dur) then
    let s1 := { s with last_seen_pair := some (vol, dur) }
    if tankGate cfg vol dur then
      { s1 with
        history := s1.history ++ [⟨now, vol, dur⟩],
        last_event_ts := some now }
    else s1
  else s

/-- `_evaluate`: "Purge outside window" (pops from the front only, like the
source's `while ... popleft()` loop). -/
def tankPurge (cfg : TankConfig) (s : TankState) (now : ℚ) : TankState :=
  { s with history := s.history.dropWhile (fun e => decide (e.ts < now - cfg.window_s)) }

/-- `_evaluate`: "Count similar events to the latest within tolerance". -/
def tankSimilarCount (cfg : TankConfig) (hist : List TankEvent) : ℕ :=
  match hist.getLast? with
  | none => 0
  | some lastEv =>
    let tol := lastEv.volume * (cfg.tol_pct / 100)
    (hist.filter (fun e =>
      decide (lastEv.volume - tol ≤ e.volume ∧ e.volume ≤ lastEv.volume + tol))).length

/-- `_evaluate`: trigger / auto-clear block. -/
def tankSetOn (cfg : TankConfig) (s : TankState) (now : ℚ) : TankState :=
  let can_trigger : Bool :=
    match s.cooldown_until with
    | none => true
    | some c => decide (now ≥ c)
  if can_trigger = true ∧ (tankSimilarCount cfg s.history : ℤ) ≥ cfg.repeat_count then
    { s with is_on := true }
  else
    let idle_clear : Bool :=
      match s.last_event_ts with
      | some t => decide (now - t ≥ cfg.clear_idle_s)
      | none => false
    if s.is_on = true ∧ idle_clear = true then
      let s1 := { s with is_on := false }
      if cfg.cooldown_s > 0 then
        { s1 with cooldown_until := some (now + cfg.cooldown_s) }
      else s1
    else s

/-- `TankRefillLeakBinarySensor._evaluate` with the source entity's
`(last_session_volume, last_session_duration)` pair already read. -/
def tankEvaluate (cfg : TankConfig) (s : TankState) (now vol : ℚ) (dur : ℤ) :
    TankState :=
  tankSetOn cfg (tankPurge cfg (tankRecord cfg s now vol dur) now) now

/-- Fold a list of `(now, vol, dur)` evaluations through the detector. -/
def runTank (cfg : TankConfig) (s : TankState)
    (events : List (ℚ × ℚ × ℤ)) : TankState :=
  events.foldl (fun st e => tankEvaluate cfg st e.1 e.2.1 e.2.2) s

/-- Config for the C4 witness: tolerance 5%, repeat 3, window 900 s,
clear-idle 1800 s, no cooldown and no volume/duration gates. -/
def cfgC4 : TankConfig := ⟨0, 0, 5, 3, 900, 1800, 0, 0, 0⟩

/-! ## WaterMonitorEngine (engine.py) -/

/-- Association-list model of a Python dict (`get`); insertion order is the
list order, keys are unique in every reachable store. -/
def dictGet {κ ν : Type} [DecidableEq κ] (m : List (κ × ν)) (k : κ) : Option ν :=
  (m.find? (fun p => decide (p.1 = k))).map (·.2)

/-- Association-list model of Python dict assignment (`setdefault` + in-place
mutation keeps insertion order; a fresh key is appended). -/
def dictSet {κ ν : Type} [DecidableEq κ] (m : List (κ × ν)) (k : κ) (v : ν) :
    List (κ × ν) :=
  if (m.find? (fun p => decide (p.1 = k))).isSome then
    m.map (fun p => if p.1 = k then (k, v) else p)
  else m ++ [(k, v)]

/-- A stats bucket: `durations` and `flows` (the stored `count` field is
always `len(durations)` and is re-derived where used). -/
abbrev Bucket := List ℤ × List ℚ

/-- `hourly_stats`: key `(hour, day_type)`. -/
abbrev HourStats := List ((ℤ × String) × Bucket)

/-- `context_stats`: key `(hour, day_type, occ_class, people_bin)`. -/
abbrev CtxStats := List ((ℤ × String × String × String) × Bucket)

/-- `_percentile`: linear interpolation on the sorted samples. -/
def percentile (data : List ℚ) (pct : ℚ) : ℚ :=
  if data = [] then 0
  else
    let xs := List.insertionSort (· ≤ ·) data
    if xs.length = 1 then xs.getD 0 0
    else
      let p := max 0 (min 100 pct) / 100
      let idx := p * ((xs.length : ℚ) - 1)
      let lo := pyInt idx
      let hi := min (lo + 1) ((xs.length : ℤ) - 1)
      let frac := idx - (lo : ℚ)
      xs.getD lo.toNat 0 * (1 - frac) + xs.getD hi.toNat 0 * frac

/-- The record returned by the bucket-stats queries. -/
structure BucketStats where
  bucket : String
  level : ℤ
  count : ℕ
  p50 : ℚ
  p90 : ℚ
  p95 : ℚ
  p99 : ℚ
deriving Repr, DecidableEq

/-- `make_stats` (shared shape of both queries): count plus rounded
percentiles of the durations. -/
def makeStats (durations : List ℤ) (bucket : String) (level : ℤ) : BucketStats :=
  let ds := durations.map (fun d => (d : ℚ))
  ⟨bucket, level, durations.length,
    pyRoundTo (percentile ds 50) 1, pyRoundTo (percentile ds 90) 1,
    pyRoundTo (percentile ds 95) 1, pyRoundTo (percentile ds 99) 1⟩

/-- `get_simple_bucket_stats`: exact `(hour, day_type)`, then hour-only merge,
then global merge. -/
def getSimpleBucketStats (hs : HourStats) (hour : ℤ) (day_type : String) :
    BucketStats :=
  let exact := ((dictGet hs (hour, day_type)).getD ([], [])).1
  if exact ≠ [] then makeStats exact (toString hour ++ "|" ++ day_type) 1
  else
    let merged := ((dictGet hs (hour, "weekday")).getD ([], [])).1 ++
      ((dictGet hs (hour, "weekend")).getD ([], [])).1
    if merged ≠ [] then makeStats merged (toString hour ++ "|*") 2
    else makeStats (hs.foldr (fun p acc => p.2.1 ++ acc) []) "*" 3

/-- Python `x or default` for the optional context strings (`None` and the
empty string are falsy). -/
def orDefault (o : Option String) (d : String) : String :=
  match o with
  | none => d
  | some v => if v = "" then d else v

/-- The people-bin variants enumerated by the level-2 merge. -/
def peopleBins : List String := ["0", "1", "2-3", "4+", "?"]

/-- `get_context_bucket_stats`: the five-rung fallback ladder (rungs 3-5 are
delegated to `get_simple_bucket_stats` and reported with `level = max 3 _`). -/
def getContextBucketStats (cs : CtxStats) (hs : HourStats) (hour : ℤ)
    (day_type : String) (occ_class people_bin : Option String) : BucketStats :=
  let oc := orDefault occ_class "unknown"
  let pb := orDefault people_bin "?"
  let exact := ((dictGet cs (hour, day_type, oc, pb)).getD ([], [])).1
  if exact ≠ [] then
    makeStats exact (toString hour ++ "|" ++ day_type ++ "|" ++ oc ++ "|" ++ pb) 1
  else
    let merged := (peopleBins.map
      (fun b => ((dictGet cs (hour, day_type, oc, b)).getD ([], [])).1)).foldr (· ++ ·) []
    if merged ≠ [] then
      makeStats merged (toString hour ++ "|" ++ day_type ++ "|" ++ oc ++ "|*") 2
    else
      let st := getSimpleBucketStats hs hour day_type
      { st with level := max 3 st.level }

/-! ## IntelligentLeakBinarySensor risk evaluation (binary_sensor.py) -/

/-- Inputs of one `_on_tracker_update` risk evaluation: live tracker metrics,
the wall-clock flow elapsed fallback, the baseline stats, the occupancy class
and the (already clamped) user sensitivity. -/
structure RiskInput where
  active : Bool
  elapsed : ℤ
  flow_now : ℚ
  flow_elapsed : ℤ
  p90 : ℚ
  p95 : ℚ
  p99 : ℚ
  count : ℤ
  occ_class : String
  sensitivity : ℚ
deriving Repr, DecidableEq

/-- Outputs of one risk evaluation. -/
structure RiskResult where
  baseline_ready : Bool
  base_threshold : ℚ
  fallback_floor_s : ℚ
  effective_threshold : ℚ
  eff_elapsed : ℤ
  risk : ℚ
  is_on : Bool
deriving Repr, DecidableEq

/-- `_percentile_from_sensitivity`: map 0..100 to 99..90 (linear). -/
def percentileFromSensitivity (s : ℚ) : ℚ :=
  99 - (9/100) * max 0 (min 100 s)

/-- `_interpolate_threshold`: piecewise-linear over [90,95] and [95,99]. -/
def interpolateThreshold (p90 p95 p99 target_p : ℚ) : ℚ :=
  let tp := max 90 (min 99 target_p)
  if tp ≤ 95 then p90 + ((tp - 90) / 5) * max 0 (p95 - p90)
  else p95 + ((tp - 95) / 4) * max 0 (p99 - p95)

/-- The risk computation of `_on_tracker_update` (source statement order). -/
def leakRisk (inp : RiskInput) : RiskResult :=
  let eff_elapsed :=
    if inp.active = true ∧ inp.elapsed > 0 then inp.elapsed else inp.flow_elapsed
  let chosen_p := percentileFromSensitivity inp.sensitivity
  let baseline_ready : Bool := decide (inp.count ≥ 10)
  let base_threshold :=
    if baseline_ready = true ∧ (inp.p90 > 0 ∨ inp.p95 > 0 ∨ inp.p99 > 0) then
      interpolateThreshold inp.p90 inp.p95 inp.p99 chosen_p
    else 0
  let fallback_min_minutes := 45 - 25 * (inp.sensitivity / 100)
  let fallback_floor_s := max (5 * 60) (fallback_min_minutes * 60)
  let et0 := if base_threshold > 0 then base_threshold else fallback_floor_s
  let et :=
    if inp.occ_class = "vacation" then max et0 (45 * 60)
    else if inp.occ_class = "away" then max et0 (35 * 60)
    else if inp.occ_class = "night" then max (et0 * (85/100)) (10 * 60)
    else et0
  let risk0 := if eff_elapsed > 0 ∧ et > 0 then (eff_elapsed : ℚ) / et else 0
  let risk :=
    if 0 < inp.flow_now ∧ inp.flow_now ≤ 3/10 ∧ inp.elapsed ≥ 10 * 60 then
      risk0 + 3/10
    else risk0
  ⟨baseline_ready, base_threshold, fallback_floor_s, et, eff_elapsed, risk,
    decide (risk ≥ 1)⟩


/-- Risk input for the C6 witness: active session of 1800 s at flow 0.2,
empty baseline, night occupancy, sensitivity 50. -/
def inpC6 : RiskInput := ⟨true, 1800, 1/5, 0, 0, 0, 0, 0, "night", 50⟩

/-! ## Daily analysis (engine.py `analyze_yesterday`) -/

/-- `statistics.mean` (0 for the empty list, mirroring `if last7 else 0.0`). -/
def listMean (xs : List ℚ) : ℚ := if xs = [] then 0 else xs.sum / (xs.length : ℚ)

/-- `statistics.pstdev` squared: the population variance. -/
def pvarianceQ (xs : List ℚ) : ℚ :=
  if xs = [] then 0 else (xs.map (fun x => (x - listMean xs) ^ 2)).sum / (xs.length : ℚ)

/-- Decides `total > mean + 3 * sqrt var` on rationals (no square root);
`gtMeanPlus3Std_iff` proves this encoding correct over ℝ. -/
def gtMeanPlus3Std (total mean var : ℚ) : Bool :=
  decide (total - mean > 0 ∧ (total - mean) ^ 2 > 9 * var)

/-- The baseline/threshold/anomaly fields of one daily summary.
`baseline_var` is the square of the source's `baseline_std`;
`threshold_defined` models `threshold_3sigma is not None`. -/
structure DailyBaseline where
  last7 : List ℚ
  baseline_mean : ℚ
  baseline_var : ℚ
  threshold_defined : Bool
  anomaly : Bool
deriving Repr, DecidableEq

/-- The baseline/threshold/anomaly core of one `analyze_yesterday` run.
`daily` maps a local-day index to that day's stored `total_volume`; `today`
is the index of the current local day (yesterday, the day being evaluated, is
`today - 1`); `total_vol` is yesterday's session-volume sum. -/
def analyzeDailyBaseline (daily : List (ℤ × ℚ)) (today : ℤ) (total_vol : ℚ) :
    DailyBaseline :=
  let last7 := (List.range 7).filterMap (fun i => dictGet daily (today - ((i : ℤ) + 2)))
  let m := listMean last7
  let var := if last7.length ≥ 2 then pvarianceQ last7 else 0
  let defined : Bool := decide (0 < var)
  ⟨last7, m, var, defined, defined && gtMeanPlus3Std total_vol m var⟩

/-! ## Session ingest (engine.py `ingest_state`) -/

/-- A `SessionRecord` as appended to the engine's session history. -/
structure SessionRecord where
  ended_at : ℚ
  volume : ℚ
  duration_s : ℤ
  avg_flow : ℚ
  hot_pct : ℚ
  gaps : ℤ
  occ_raw : Option String
  occ_class : Option String
  people_bin : Option String
deriving Repr, DecidableEq

/-- The `last_session_*` snapshot fields read by `ingest_state`. -/
structure IngestInput where
  last_session_volume : ℚ
  last_session_duration : ℤ
  last_session_synthetic_volume : ℚ
  last_session_average_flow : ℚ
  last_session_hot_water_pct : ℚ
  last_session_gapped_sessions : ℤ
deriving Repr, DecidableEq

/-- Engine persisted state plus the in-memory `_last_session_sig` dedup
signature (`daily` keeps only each day's `total_volume`, the field the
baseline query reads). -/
structure EngineState where
  sessions : List SessionRecord := []
  daily : List (ℤ × ℚ) := []
  hourly_stats : HourStats := []
  context_stats : CtxStats := []
  last_session_sig : Option (ℚ × ℤ) := none
deriving Repr, DecidableEq

/-- `_update_hourly_stats`: append to the bucket, cap both arrays at 200. -/
def updateHourlyStats (hs : HourStats) (hour : ℤ) (day_type : String)
    (duration_s : ℤ) (avg_flow : ℚ) : HourStats :=
  let slot := (dictGet hs (hour, day_type)).getD ([], [])
  let durs := slot.1 ++ [duration_s]
  let durs := if durs.length > 200 then durs.drop (durs.length - 200) else durs
  let flows := slot.2 ++ [avg_flow]
  let flows := if flows.length > 200 then flows.drop (flows.length - 200) else flows
  dictSet hs (hour, day_type) (durs, flows)

/-- `_update_context_stats`: like the hourly update, with defaulted context
strings in the key. -/
def updateContextStats (cs : CtxStats) (hour : ℤ) (day_type : String)
    (occ_class people_bin : Option String) (duration_s : ℤ) (avg_flow : ℚ) :
    CtxStats :=
  let key := (hour, day_type, orDefault occ_class "unknown", orDefault people_bin "?")
  let slot := (dictGet cs key).getD ([], [])
  let durs := slot.1 ++ [duration_s]
  let durs := if durs.length > 200 then durs.drop (durs.length - 200) else durs
  let flows := slot.2 ++ [avg_flow]
  let flows := if flows.length > 200 then flows.drop (flows.length - 200) else flows
  dictSet cs key (durs, flows)

/-- The effective volume `ingest_state` gates on: the reported volume minus
the synthetic contribution, both floored at 0. -/
def volEff (inp : IngestInput) : ℚ :=
  max 0 (inp.last_session_volume - max 0 inp.last_session_synthetic_volume)

/-- The record `ingest_state` builds when it does append. -/
def ingestRecord (inp : IngestInput) (now : ℚ)
    (occ_raw occ_class people_bin : Option String) : SessionRecord :=
  let dur := inp.last_session_duration
  let synth := inp.last_session_synthetic_volume
  let avg0 := inp.last_session_average_flow
  let avg :=
    if dur > 0 ∧ synth > 0 then
      let a := avg0 - synth / ((dur : ℚ) / 60)
      if a < 0 then 0 else a
    else avg0
  ⟨now, pyRoundTo (volEff inp) 6, dur, pyRoundTo avg 6,
    pyRoundTo inp.last_session_hot_water_pct 2, inp.last_session_gapped_sessions,
    occ_raw, occ_class, people_bin⟩

/-- `WaterMonitorEngine.ingest_state` with the end-time context classification
(`hour`, `day_type`, occupancy, people bin) injected as inputs. -/
def ingestState (es : EngineState) (inp : IngestInput) (now : ℚ) (hour : ℤ)
    (day_type : String) (occ_raw occ_class people_bin : Option String) :
    EngineState :=
  let dur := inp.last_session_duration
  if volEff inp ≤ 0 ∨ dur ≤ 0 then es
  else
    let sig := (pyRoundTo (volEff inp) 4, dur)
    if es.last_session_sig = some sig then es
    else
      let rec_ := ingestRecord inp now occ_raw occ_class people_bin
      let sessions := es.sessions ++ [rec_]
      let sessions :=
        if sessions.length > 5000 then sessions.drop (sessions.length - 5000)
        else sessions
      { es with
        last_session_sig := some sig,
        sessions := sessions,
        hourly_stats :=
          updateHourlyStats es.hourly_stats hour day_type rec_.duration_s rec_.avg_flow,
        context_stats :=
          updateContextStats es.context_stats hour day_type occ_class people_bin
            rec_.duration_s rec_.avg_flow }

lemma accumulateTime_eq (s : TrackerState) (ts : ℚ) :
    accumulateTime s ts =
      { s with
        current_session_duration_secs :=
          s.current_session_duration_secs +
            (if s.prev_session_active = true then accDelta s ts else 0),
        current_hot_water_duration_secs :=
          s.current_hot_water_duration_secs +
            (if s.prev_session_active = true ∧ s.prev_hot_water_active = true then
              accDelta s ts else 0),
        last_update_ts := some ts } := by
  cases h : s.last_update_ts <;> simp [accumulateTime, accDelta, h]

end WaterMonitor

/-! ## Theorems: WaterSessionTracker -/

namespace WaterMonitor

lemma tracker_idle_step (cfg : TrackerConfig) (s : TrackerState) (f v : ℚ)
    (hot : Bool) (ts : ℚ)
    (hact : s.session_active = false)
    (hcand : s.session_end_candidate_time = none)
    (hf : f ≤ 0) :
    (trackerUpdate cfg s f v hot ts).last_session = s.last_session ∧
    (trackerUpdate cfg s f v hot ts).session_active = false := by
  have hmax : max 0 f = 0 := max_eq_left hf
  simp only [trackerUpdate, accumulateTime_eq, readSample, startPhase, gapPhase,
    resumePhase, finalizePhase, cachePrev]
  simp [hact, hcand, hmax, lt_irrefl]

/-- Claim C1 (amended): once a session is in a gap and no flow persists for at
least `session_continuity_window` seconds since the gap-candidate time, the
next update finalizes the session exactly once, with
`volume = cumulative_volume - session_start_volume` (floored at 0),
`duration` equal to the truncated wall-clock seconds from the session start to
the finalizing timestamp (not the accumulated-duration counter), and
`average_flow = volume/duration*60` (0 if `duration ≤ 0`); the session is
published as `last_session` iff `volume ≥ min_session_volume` and
`duration ≥ min_session_duration` (otherwise `last_session` is unchanged); the
phase resets to IDLE in either case, and subsequent zero-flow updates change
nothing. -/
theorem C1_finalize (cfg : TrackerConfig) (s : TrackerState) (f v : ℚ) (hot : Bool)
    (ts tc t0 : ℚ)
    (hact : s.session_active = true) (hgap : s.gap_active = true)
    (hcand : s.session_end_candidate_time = some tc)
    (hstart : s.current_session_start = some t0)
    (hf : f ≤ 0)
    (hwin : ts - tc ≥ cfg.session_continuity_window) :
    (trackerUpdate cfg s f v hot ts).last_session =
      (if max 0 (max 0 v - s.session_start_volume) ≥ cfg.min_session_volume ∧
          pyInt (ts - t0) ≥ cfg.min_session_duration then
        some ⟨t0, ts, pyInt (ts - t0), max 0 (max 0 v - s.session_start_volume),
          (accumulateTime s ts).current_hot_water_duration_secs,
          s.gapped_sessions_count,
          if pyInt (ts - t0) > 0 then
            max 0 (max 0 v - s.session_start_volume) / ((pyInt (ts - t0) : ℤ) : ℚ) * 60
          else 0⟩
      else s.last_session) ∧
    (trackerUpdate cfg s f v hot ts).session_active = false ∧
    (trackerUpdate cfg s f v hot ts).gap_active = false ∧
    debugState (trackerUpdate cfg s f v hot ts) = "IDLE" ∧
    (∀ f2 v2 hot2 ts2, f2 ≤ 0 →
      (trackerUpdate cfg (trackerUpdate cfg s f v hot ts) f2 v2 hot2 ts2).last_session =
        (trackerUpdate cfg s f v hot ts).last_session ∧
      (trackerUpdate cfg (trackerUpdate cfg s f v hot ts) f2 v2 hot2 ts2).session_active = false) := by
  have hmax : max 0 f = 0 := max_eq_left hf
  have h1 : (trackerUpdate cfg s f v hot ts).session_active = false ∧
      (trackerUpdate cfg s f v hot ts).session_end_candidate_time = none ∧
      (trackerUpdate cfg s f v hot ts).gap_active = false := by
    simp only [trackerUpdate, accumulateTime_eq, readSample, startPhase, gapPhase,
      resumePhase, finalizePhase, cachePrev]
    simp [hact, hgap, hcand, hstart, hmax, hwin, lt_irrefl]
  refine ⟨?_, h1.1, h1.2.2, ?_, ?_⟩
  · simp only [trackerUpdate, accumulateTime_eq, readSample, startPhase, gapPhase,
      resumePhase, finalizePhase, cachePrev]
    simp [hact, hgap, hcand, hstart, hmax, hwin, lt_irrefl, accumulateTime_eq]
  · simp [debugState, h1.1, h1.2.2]
  · intro f2 v2 hot2 ts2 hf2
    exact tracker_idle_step cfg _ f2 v2 hot2 ts2 h1.1 h1.2.1 hf2

/-- Witness for C1: the concrete gap state `sC1` (candidate time 1.8,
session start 0) finalizes at t=5. -/
theorem C1_finalize_witness :
    sC1.session_active = true ∧ sC1.gap_active = true ∧
    (trackerUpdate cfgC1 sC1 0 1 false 5).session_active = false ∧
    debugState (trackerUpdate cfgC1 sC1 0 1 false 5) = "IDLE" := by
  have h := C1_finalize cfgC1 sC1 0 1 false 5 (9/5) 0
    (by with_unfolding_all decide) (by with_unfolding_all decide)
    (by with_unfolding_all decide) (by with_unfolding_all decide)
    (le_refl 0) (by with_unfolding_all decide)
  exact ⟨by with_unfolding_all decide, by with_unfolding_all decide, h.2.1, h.2.2.2.1⟩

/-- Counterexample to C1 as stated: with sub-second sample cadence the
finalized `duration` (wall-clock, 5 s here) differs from the accumulated
duration counter (3 s here), so `duration = accumulated_duration_s` fails. -/
theorem C1_counterexample :
    ((trackerUpdate cfgC1 sC1 0 1 false 5).last_session.map WaterSession.duration =
      some 5) ∧
    (accumulateTime sC1 5).current_session_duration_secs = 3 ∧
    (5 : ℤ) ≠ 3 := by with_unfolding_all decide

/-- Claim C2: if flow drops to 0 while a session is active, the tracker enters
a gap (candidate time = that update's timestamp) without finalizing and
without resetting the session accumulators; if flow then resumes above 0
strictly before the continuity window elapses, the session is not finalized,
`gapped_sessions_count` increments by exactly 1, the gap-candidate timer is
cleared, and `session_start_volume`, `current_session_start` and the
accumulated duration keep accruing from the original start. -/
theorem C2_gap_resume (cfg : TrackerConfig) (hwin : cfg.session_continuity_window > 0) :
    (∀ (s : TrackerState) (f1 v1 : ℚ) (hot1 : Bool) (t1 : ℚ),
      s.session_active = true → s.gap_active = false → f1 ≤ 0 →
      (trackerUpdate cfg s f1 v1 hot1 t1).session_active = true ∧
      (trackerUpdate cfg s f1 v1 hot1 t1).gap_active = true ∧
      (trackerUpdate cfg s f1 v1 hot1 t1).session_end_candidate_time = some t1 ∧
      (trackerUpdate cfg s f1 v1 hot1 t1).last_session = s.last_session ∧
      (trackerUpdate cfg s f1 v1 hot1 t1).session_start_volume = s.session_start_volume ∧
      (trackerUpdate cfg s f1 v1 hot1 t1).current_session_start = s.current_session_start ∧
      (trackerUpdate cfg s f1 v1 hot1 t1).gapped_sessions_count = s.gapped_sessions_count ∧
      (trackerUpdate cfg s f1 v1 hot1 t1).current_session_duration_secs =
        s.current_session_duration_secs +
          (if s.prev_session_active = true then accDelta s t1 else 0)) ∧
    (∀ (s : TrackerState) (f2 v2 : ℚ) (hot2 : Bool) (tc t2 : ℚ),
      s.session_active = true → s.gap_active = true →
      s.session_end_candidate_time = some tc → f2 > 0 →
      t2 - tc < cfg.session_continuity_window →
      (trackerUpdate cfg s f2 v2 hot2 t2).session_active = true ∧
      (trackerUpdate cfg s f2 v2 hot2 t2).gap_active = false ∧
      (trackerUpdate cfg s f2 v2 hot2 t2).gapped_sessions_count =
        s.gapped_sessions_count + 1 ∧
      (trackerUpdate cfg s f2 v2 hot2 t2).session_end_candidate_time = none ∧
      (trackerUpdate cfg s f2 v2 hot2 t2).last_session = s.last_session ∧
      (trackerUpdate cfg s f2 v2 hot2 t2).session_start_volume = s.session_start_volume ∧
      (trackerUpdate cfg s f2 v2 hot2 t2).current_session_start = s.current_session_start ∧
      (trackerUpdate cfg s f2 v2 hot2 t2).current_session_duration_secs =
        s.current_session_duration_secs +
          (if s.prev_session_active = true then accDelta s t2 else 0)) := by
  constructor
  · intro s f1 v1 hot1 t1 hact hgap hf1
    have hmax : max 0 f1 = 0 := max_eq_left hf1
    have hnw : ¬ (cfg.session_continuity_window ≤ 0) := not_le.mpr hwin
    rcases hcs : s.current_session_start with _ | t0 <;>
      · simp only [trackerUpdate, accumulateTime_eq, readSample, startPhase, gapPhase,
          resumePhase, finalizePhase, cachePrev]
        simp [hact, hgap, hcs, hmax, hnw, lt_irrefl]
  · intro s f2 v2 hot2 tc t2 hact hgap hcand hf2 _
    have hmax : max 0 f2 = f2 := max_eq_right (le_of_lt hf2)
    have hne : ¬ (f2 = 0) := ne_of_gt hf2
    simp only [trackerUpdate, accumulateTime_eq, readSample, startPhase, gapPhase,
      resumePhase, finalizePhase, cachePrev]
    simp [hact, hgap, hcand, hmax, hf2, hne]

/-- Witness for C2: the concrete gap state `sC1` resumes at t=2 (0.2 s into a
3 s window) and bumps the resumption counter. -/
theorem C2_gap_resume_witness :
    (trackerUpdate cfgC1 sC1 1 1 false 2).gapped_sessions_count =
      sC1.gapped_sessions_count + 1 ∧
    (trackerUpdate cfgC1 sC1 1 1 false 2).session_active = true ∧
    (trackerUpdate cfgC1 sC1 1 1 false 2).last_session = sC1.last_session := by
  have h := (C2_gap_resume cfgC1 (by with_unfolding_all decide)).2 sC1 1 1 false (9/5) 2
    (by with_unfolding_all decide) (by with_unfolding_all decide)
    (by with_unfolding_all decide) (by norm_num) (by with_unfolding_all decide)
  exact ⟨h.2.2.1, h.1, h.2.2.2.2.1⟩

/-- Claim C8: on every update the elapsed time since the previous update is
truncated to whole seconds, clamped at ≥ 0, and added to the session/hot-water
accumulators according to the flags cached from before the new sample
(`prev_session_active`, `prev_hot_water_active`); the added amounts do not
depend on the new sample at all, and the accumulation step runs before the new
sample is read, as the final conjunct's decomposition of `trackerUpdate`
shows. -/
theorem C8_prev_flag_accumulation (cfg : TrackerConfig) (s : TrackerState)
    (f v : ℚ) (hot : Bool) (ts t0 : ℚ)
    (h : s.last_update_ts = some t0) :
    (0 : ℤ) ≤ (if pyInt (ts - t0) < 0 then 0 else pyInt (ts - t0)) ∧
    (accumulateTime s ts).current_session_duration_secs =
      s.current_session_duration_secs +
        (if s.prev_session_active = true then
          (if pyInt (ts - t0) < 0 then 0 else pyInt (ts - t0)) else 0) ∧
    (accumulateTime s ts).current_hot_water_duration_secs =
      s.current_hot_water_duration_secs +
        (if s.prev_session_active = true ∧ s.prev_hot_water_active = true then
          (if pyInt (ts - t0) < 0 then 0 else pyInt (ts - t0)) else 0) ∧
    (accumulateTime s ts).last_update_ts = some ts ∧
    trackerUpdate cfg s f v hot ts =
      cachePrev (finalizePhase cfg ts (resumePhase (gapPhase ts (startPhase ts
        (readSample (accumulateTime s ts) f v hot))))) := by
  refine ⟨?_, ?_, ?_, ?_, rfl⟩
  · split <;> omega
  · simp [accumulateTime, h]
  · simp [accumulateTime, h]
  · simp [accumulateTime, h]

/-- Witness for C8 at the concrete state `sC1` (previous update at t=1.8,
session flag cached as active): 3 whole seconds accrue by t=5. -/
theorem C8_prev_flag_accumulation_witness :
    (accumulateTime sC1 5).current_session_duration_secs =
      sC1.current_session_duration_secs +
        (if sC1.prev_session_active = true then
          (if pyInt (5 - 9/5) < 0 then 0 else pyInt (5 - 9/5)) else 0) ∧
    (accumulateTime sC1 5).last_update_ts = some 5 := by
  have h := C8_prev_flag_accumulation cfgC1 sC1 0 1 false 5 (9/5)
    (by with_unfolding_all decide)
  exact ⟨h.2.1, h.2.2.2.1⟩

lemma gapImpActive_accumulateTime (s : TrackerState) (ts : ℚ)
    (h : GapImpActive s) : GapImpActive (accumulateTime s ts) := by
  unfold GapImpActive at h ⊢
  simpa [accumulateTime_eq] using h

lemma gapImpActive_readSample (s : TrackerState) (f v : ℚ) (hot : Bool)
    (h : GapImpActive s) : GapImpActive (readSample s f v hot) := by
  unfold GapImpActive at h ⊢
  simpa [readSample] using h

lemma gapImpActive_startPhase (ts : ℚ) (s : TrackerState)
    (h : GapImpActive s) : GapImpActive (startPhase ts s) := by
  unfold GapImpActive at h ⊢
  unfold startPhase
  split
  · simp
  · exact h

lemma gapImpActive_gapPhase (ts : ℚ) (s : TrackerState)
    (h : GapImpActive s) : GapImpActive (gapPhase ts s) := by
  unfold GapImpActive at h ⊢
  unfold gapPhase
  split
  · next hcond =>
    split
    · rcases hcs : s.current_session_start with _ | t0 <;> simp [hcs, hcond.1]
    · exact h
  · exact h

lemma gapImpActive_resumePhase (s : TrackerState)
    (h : GapImpActive s) : GapImpActive (resumePhase s) := by
  unfold GapImpActive at h ⊢
  unfold resumePhase
  split
  · simp
  · exact h

lemma gapImpActive_finalizePhase (cfg : TrackerConfig) (ts : ℚ) (s : TrackerState)
    (h : GapImpActive s) : GapImpActive (finalizePhase cfg ts s) := by
  unfold GapImpActive at h ⊢
  unfold finalizePhase
  split
  · exact h
  · split
    · simp
    · exact h

lemma gapImpActive_cachePrev (s : TrackerState)
    (h : GapImpActive s) : GapImpActive (cachePrev s) := by
  unfold GapImpActive at h ⊢
  simpa [cachePrev] using h

lemma trackerUpdate_gap_imp_active (cfg : TrackerConfig) (s : TrackerState)
    (f v : ℚ) (hot : Bool) (ts : ℚ) (h : GapImpActive s) :
    GapImpActive (trackerUpdate cfg s f v hot ts) :=
  gapImpActive_cachePrev _ (gapImpActive_finalizePhase cfg ts _
    (gapImpActive_resumePhase _ (gapImpActive_gapPhase ts _
      (gapImpActive_startPhase ts _ (gapImpActive_readSample _ f v hot
        (gapImpActive_accumulateTime s ts h))))))

lemma runTracker_gap_imp_active (cfg : TrackerConfig)
    (events : List (ℚ × ℚ × Bool × ℚ)) :
    ∀ s : TrackerState, GapImpActive s → GapImpActive (runTracker cfg s events) := by
  induction events with
  | nil => intro s h; exact h
  | cons e rest ih =>
    intro s h
    exact ih _ (trackerUpdate_gap_imp_active cfg s e.1 e.2.1 e.2.2.1 e.2.2.2 h)

/-- Claim C9 (amended): in every reachable tracker state the `debug_state` tag
is `"ACTIVE"` exactly when a session is open — including while a gap is in
progress, since `gap_active` implies `session_active` in every reachable
state — and `"IDLE"` otherwise; the `"GAP"` tag never occurs. -/
theorem C9_debug_state (cfg : TrackerConfig) (events : List (ℚ × ℚ × Bool × ℚ)) :
    ((runTracker cfg initialTrackerState events).gap_active &&
      !(runTracker cfg initialTrackerState events).session_active) = false ∧
    debugState (runTracker cfg initialTrackerState events) =
      (if (runTracker cfg initialTrackerState events).session_active = true then
        "ACTIVE" else "IDLE") := by
  have h0 : GapImpActive initialTrackerState := by
    intro h
    simp [initialTrackerState] at h
  have h := runTracker_gap_imp_active cfg events initialTrackerState h0
  set s := runTracker cfg initialTrackerState events with hs
  constructor
  · cases hg : s.gap_active
    · simp
    · simp [h hg]
  · unfold debugState
    cases hact : s.session_active
    · cases hg : s.gap_active
      · simp
      · exact absurd (h hg) (by simp [hact])
    · simp

/-- Counterexample to C9 as stated: in the reachable state `sC1` a gap is in
progress (`gap_active = true`) but the snapshot's `debug_state` is `"ACTIVE"`,
not `"GAP"`. -/
theorem C9_counterexample :
    sC1.gap_active = true ∧ debugState sC1 = "ACTIVE" ∧
    ("ACTIVE" : String) ≠ "GAP" := by with_unfolding_all decide

end WaterMonitor

/-! ## Theorems: LowFlowLeakBinarySensor -/

namespace WaterMonitor

lemma dtOf_nonneg (s : LowFlowState) (now : ℚ) : 0 ≤ dtOf s now := by
  unfold dtOf
  dsimp only
  split_ifs with h
  · exact le_refl 0
  · exact le_of_not_lt h

lemma lowFlowCadence_fields (s : LowFlowState) (dt : ℚ) (ca : Bool) :
    (lowFlowCadence s dt ca).seeded = s.seeded ∧
    (lowFlowCadence s dt ca).count_progress = s.count_progress ∧
    (lowFlowCadence s dt ca).seed_progress = s.seed_progress ∧
    (lowFlowCadence s dt ca).is_on = s.is_on := by
  unfold lowFlowCadence
  dsimp only
  split_ifs <;> simp_all [apply_ite]

lemma lowFlowClear_fields (cfg : LowFlowConfig) (s : LowFlowState) (now : ℚ) :
    (lowFlowClear cfg s now).seeded = s.seeded ∧
    (lowFlowClear cfg s now).count_progress = s.count_progress ∧
    (lowFlowClear cfg s now).seed_progress = s.seed_progress ∧
    ((lowFlowClear cfg s now).is_on = true → s.is_on = true) := by
  unfold lowFlowClear
  dsimp only
  split_ifs <;> simp_all

lemma lowFlowTrigger_fields (cfg : LowFlowConfig) (s : LowFlowState) (now : ℚ) :
    (lowFlowTrigger cfg s now).seeded = s.seeded ∧
    (lowFlowTrigger cfg s now).count_progress = s.count_progress ∧
    (lowFlowTrigger cfg s now).seed_progress = s.seed_progress ∧
    ((lowFlowTrigger cfg s now).is_on = true →
      s.is_on = true ∨ (s.seeded = true ∧ s.count_progress ≥ (cfg.min_s : ℚ))) := by
  unfold lowFlowTrigger
  dsimp only
  split_ifs with hcond <;> simp_all

lemma lowFlowProgress_count (cfg : LowFlowConfig) (s : LowFlowState) (dt flow : ℚ)
    (hc : 0 ≤ s.count_progress) :
    (lowFlowProgress cfg s dt flow).count_progress > s.count_progress →
      s.seeded = true ∧ countingActive cfg flow = true := by
  unfold lowFlowProgress
  dsimp only
  split_ifs <;> simp_all

lemma lowFlowProgress_seed_latch (cfg : LowFlowConfig) (s : LowFlowState)
    (dt flow : ℚ) (h : s.seeded = true) :
    (lowFlowProgress cfg s dt flow).seeded = true := by
  unfold lowFlowProgress
  dsimp only
  split_ifs <;> simp_all

lemma lowFlowProgress_seed_birth (cfg : LowFlowConfig) (s : LowFlowState)
    (dt flow : ℚ) :
    (lowFlowProgress cfg s dt flow).seeded = true →
      s.seeded = true ∨
        (countingActive cfg flow = true ∧
          (cfg.seed_s = 0 ∨ s.seed_progress + dt ≥ (cfg.seed_s : ℚ))) := by
  unfold lowFlowProgress
  dsimp only
  split_ifs <;> simp_all

lemma lowFlowProgress_is_on (cfg : LowFlowConfig) (s : LowFlowState) (dt flow : ℚ) :
    (lowFlowProgress cfg s dt flow).is_on = s.is_on := by
  unfold lowFlowProgress
  dsimp only
  split_ifs <;> simp_all

/-- Claim C3 (amended): counting progress accrues only while the detector is
seeded and the flow qualifies, the seeded flag arises only from continuous
qualifying flow reaching `seed_s` (or `seed_s = 0`), and a fresh trigger
requires the seeded flag plus `min_s` of counting progress — but the seeded
flag is a one-shot latch that is never reset, so after a clear (or any
episode end) the next nonzero-flow episode does NOT pass through seeding
again before counting resumes. -/
theorem C3_seeding (cfg : LowFlowConfig) (s : LowFlowState) (now : ℚ)
    (flowOpt : Option ℚ) (hc : 0 ≤ s.count_progress) :
    ((lowFlowEvaluate cfg s now flowOpt).count_progress > s.count_progress →
      s.seeded = true ∧ countingActive cfg (flowOpt.getD 0) = true) ∧
    (s.seeded = true → (lowFlowEvaluate cfg s now flowOpt).seeded = true) ∧
    ((lowFlowEvaluate cfg s now flowOpt).seeded = true →
      s.seeded = true ∨
        (countingActive cfg (flowOpt.getD 0) = true ∧
          (cfg.seed_s = 0 ∨ s.seed_progress + dtOf s now ≥ (cfg.seed_s : ℚ)))) ∧
    ((lowFlowEvaluate cfg s now flowOpt).is_on = true →
      s.is_on = true ∨
        ((lowFlowEvaluate cfg s now flowOpt).seeded = true ∧
          (lowFlowEvaluate cfg s now flowOpt).count_progress ≥ (cfg.min_s : ℚ))) := by
  have h2 := lowFlowCadence_fields (lowFlowProgress cfg s (dtOf s now) (flowOpt.getD 0))
    (dtOf s now) (countingActive cfg (flowOpt.getD 0))
  have h3 := lowFlowClear_fields cfg
    (lowFlowCadence (lowFlowProgress cfg s (dtOf s now) (flowOpt.getD 0))
      (dtOf s now) (countingActive cfg (flowOpt.getD 0))) now
  have h4 := lowFlowTrigger_fields cfg
    (lowFlowClear cfg
      (lowFlowCadence (lowFlowProgress cfg s (dtOf s now) (flowOpt.getD 0))
        (dtOf s now) (countingActive cfg (flowOpt.getD 0))) now) now
  have hr_cnt : (lowFlowEvaluate cfg s now flowOpt).count_progress =
      (lowFlowProgress cfg s (dtOf s now) (flowOpt.getD 0)).count_progress := by
    show (lowFlowTrigger cfg _ now).count_progress = _
    rw [h4.2.1, h3.2.1, h2.2.1]
  have hr_seed : (lowFlowEvaluate cfg s now flowOpt).seeded =
      (lowFlowProgress cfg s (dtOf s now) (flowOpt.getD 0)).seeded := by
    show (lowFlowTrigger cfg _ now).seeded = _
    rw [h4.1, h3.1, h2.1]
  have hr_on : (lowFlowEvaluate cfg s now flowOpt).is_on =
      (lowFlowTrigger cfg
        (lowFlowClear cfg
          (lowFlowCadence (lowFlowProgress cfg s (dtOf s now) (flowOpt.getD 0))
            (dtOf s now) (countingActive cfg (flowOpt.getD 0))) now) now).is_on := rfl
  refine ⟨?_, ?_, ?_, ?_⟩
  · intro hgt
    rw [hr_cnt] at hgt
    exact lowFlowProgress_count cfg s (dtOf s now) (flowOpt.getD 0) hc hgt
  · intro hseed
    rw [hr_seed]
    exact lowFlowProgress_seed_latch cfg s (dtOf s now) (flowOpt.getD 0) hseed
  · intro hseed
    rw [hr_seed] at hseed
    exact lowFlowProgress_seed_birth cfg s (dtOf s now) (flowOpt.getD 0) hseed
  · intro hon
    rw [hr_on] at hon
    rcases h4.2.2.2 hon with h | h
    · left
      have hs2 := h3.2.2.2 h
      rw [h2.2.2.2, lowFlowProgress_is_on] at hs2
      exact hs2
    · right
      constructor
      · rw [hr_seed, ← h2.1, ← h3.1]
        exact h.1
      · rw [hr_cnt, ← h2.2.1, ← h3.2.1]
        exact h.2

/-- Witness for C3 at the cleared concrete state: the latch survives the
clear, so the t=7 evaluation stays seeded and its counting progress moves. -/
theorem C3_seeding_witness :
    sC3cleared.seeded = true ∧
    (lowFlowEvaluate cfgC3 sC3cleared 7 (some 1)).seeded = true := by
  refine ⟨by with_unfolding_all decide, ?_⟩
  exact (C3_seeding cfgC3 sC3cleared 7 (some 1) (by with_unfolding_all decide)).2.1
    (by with_unfolding_all decide)

/-- Counterexample to C3 as stated: the first episode (t=1..5, flow 1) seeds
and triggers; one zero-flow second at t=6 clears back to idle; in the next
nonzero-flow episode counting progress is already 1 after a single second —
less than the 2 s seeding requirement — and the detector re-triggers at t=9
without any new seeding period. -/
theorem C3_counterexample :
    (runLowFlow cfgC3 (lowFlowStart 0)
      [(1, some 1), (2, some 1), (3, some 1), (4, some 1), (5, some 1)]).is_on = true ∧
    sC3cleared.is_on = false ∧
    sC3cleared.count_progress = 0 ∧
    (lowFlowEvaluate cfgC3 sC3cleared 7 (some 1)).count_progress = 1 ∧
    (1 : ℚ) < (cfgC3.seed_s : ℚ) ∧
    (runLowFlow cfgC3 sC3cleared [(7, some 1), (8, some 1), (9, some 1)]).is_on = true := by
  with_unfolding_all decide

end WaterMonitor

/-! ## Theorems: TankRefillLeakBinarySensor -/


namespace WaterMonitor

lemma dropWhile_keep {p : TankEvent → Bool} :
    ∀ (l : List TankEvent), (∀ e ∈ l, p e = false) → l.dropWhile p = l := by
  intro l h
  cases l with
  | nil => rfl
  | cons a t =>
    rw [List.dropWhile_cons_of_neg]
    simp [h a (List.mem_cons_self a t)]

lemma tankSimilarCount_le_length (cfg : TankConfig) (hist : List TankEvent) :
    tankSimilarCount cfg hist ≤ hist.length := by
  unfold tankSimilarCount
  cases hist.getLast? with
  | none => simp
  | some lastEv => simpa using List.length_filter_le _ hist

lemma tankEvaluate_step_off (cfg : TankConfig) (s : TankState) (now vol : ℚ)
    (dur : ℤ)
    (hoff : s.is_on = false) (hcd : s.cooldown_until = none)
    (hpair : s.last_seen_pair ≠ some (vol, dur))
    (hgate : tankGate cfg vol dur)
    (hkeep : ∀ e ∈ s.history ++ [⟨now, vol, dur⟩], ¬ (e.ts < now - cfg.window_s)) :
    tankEvaluate cfg s now vol dur =
      { s with
        history := s.history ++ [⟨now, vol, dur⟩],
        last_event_ts := some now,
        last_seen_pair := some (vol, dur),
        is_on := decide
          ((tankSimilarCount cfg (s.history ++ [⟨now, vol, dur⟩]) : ℤ) ≥ cfg.repeat_count) } := by
  have hrec : tankRecord cfg s now vol dur =
      { s with
        history := s.history ++ [⟨now, vol, dur⟩],
        last_event_ts := some now,
        last_seen_pair := some (vol, dur) } := by
    unfold tankRecord
    rw [if_pos hpair, if_pos hgate]
  have hpurge : tankPurge cfg (tankRecord cfg s now vol dur) now =
      { s with
        history := s.history ++ [⟨now, vol, dur⟩],
        last_event_ts := some now,
        last_seen_pair := some (vol, dur) } := by
    rw [hrec]
    unfold tankPurge
    congr 1
    exact dropWhile_keep _ (fun e he => by simpa using hkeep e (by simpa using he))
  unfold tankEvaluate
  rw [hpurge]
  unfold tankSetOn
  dsimp only
  rw [hcd]
  dsimp only
  by_cases hcnt : (tankSimilarCount cfg (s.history ++ [⟨now, vol, dur⟩]) : ℤ) ≥ cfg.repeat_count
  · rw [if_pos ⟨rfl, hcnt⟩]
    simp [hcnt]
  · rw [if_neg (by simp [hcnt])]
    simp [hoff, hcnt]


lemma tankEvaluate_step_on (cfg : TankConfig) (s : TankState) (now vol : ℚ)
    (dur : ℤ)
    (hon : s.is_on = true) (hcd : s.cooldown_until = none)
    (hpair : s.last_seen_pair ≠ some (vol, dur))
    (hgate : tankGate cfg vol dur)
    (hclear : cfg.clear_idle_s > 0)
    (hkeep : ∀ e ∈ s.history ++ [⟨now, vol, dur⟩], ¬ (e.ts < now - cfg.window_s)) :
    tankEvaluate cfg s now vol dur =
      { s with
        history := s.history ++ [⟨now, vol, dur⟩],
        last_event_ts := some now,
        last_seen_pair := some (vol, dur),
        is_on := true } := by
  have hrec : tankRecord cfg s now vol dur =
      { s with
        history := s.history ++ [⟨now, vol, dur⟩],
        last_event_ts := some now,
        last_seen_pair := some (vol, dur) } := by
    unfold tankRecord
    rw [if_pos hpair, if_pos hgate]
  have hpurge : tankPurge cfg (tankRecord cfg s now vol dur) now =
      { s with
        history := s.history ++ [⟨now, vol, dur⟩],
        last_event_ts := some now,
        last_seen_pair := some (vol, dur) } := by
    rw [hrec]
    unfold tankPurge
    congr 1
    exact dropWhile_keep _ (fun e he => by simpa using hkeep e (by simpa using he))
  unfold tankEvaluate
  rw [hpurge]
  unfold tankSetOn
  dsimp only
  rw [hcd]
  dsimp only
  by_cases hcnt : (tankSimilarCount cfg (s.history ++ [⟨now, vol, dur⟩]) : ℤ) ≥ cfg.repeat_count
  · rw [if_pos ⟨rfl, hcnt⟩]
  · rw [if_neg (by simp [hcnt])]
    rw [if_neg]
    · simp [hon]
    · intro hcontr
      have h2 := hcontr.2
      simp only [decide_eq_true_eq] at h2
      have : now - now ≥ cfg.clear_idle_s := h2
      rw [sub_self] at this
      linarith


/-- Claim C4: with `repeat_count = 3` and no cooldown, three candidate
refills whose volumes all lie in the most-recent candidate's tolerance band
`reference_volume * tol_pct/100`, recorded inside `window_s`, turn
`is_on = true`; a fourth candidate of dissimilar volume recorded while the
first three remain within the window is appended without resetting them: all
four stay in the history, the detector stays on, and the count of candidates
similar to the third volume is still 3. -/
theorem C4_tank_refill
    (cfg : TankConfig) (t1 t2 t3 t4 v1 v2 v3 v4 : ℚ) (d1 d2 d3 d4 : ℤ)
    (hrep : cfg.repeat_count = 3)
    (hwin0 : 0 ≤ cfg.window_s)
    (hclear : cfg.clear_idle_s > 0)
    (ht12 : t1 ≤ t2) (ht23 : t2 ≤ t3) (ht34 : t3 ≤ t4)
    (hw3 : t3 - t1 ≤ cfg.window_s) (hw4 : t4 - t1 ≤ cfg.window_s)
    (hp1 : (v1, d1) ≠ (v2, d2)) (hp2 : (v2, d2) ≠ (v3, d3)) (hp3 : (v3, d3) ≠ (v4, d4))
    (hg1 : tankGate cfg v1 d1) (hg2 : tankGate cfg v2 d2) (hg3 : tankGate cfg v3 d3)
    (hg4 : tankGate cfg v4 d4)
    (hs1 : v3 - v3 * (cfg.tol_pct / 100) ≤ v1 ∧ v1 ≤ v3 + v3 * (cfg.tol_pct / 100))
    (hs2 : v3 - v3 * (cfg.tol_pct / 100) ≤ v2 ∧ v2 ≤ v3 + v3 * (cfg.tol_pct / 100))
    (hs3 : v3 - v3 * (cfg.tol_pct / 100) ≤ v3 ∧ v3 ≤ v3 + v3 * (cfg.tol_pct / 100))
    (hd4 : ¬ (v3 - v3 * (cfg.tol_pct / 100) ≤ v4 ∧ v4 ≤ v3 + v3 * (cfg.tol_pct / 100))) :
    (runTank cfg initialTankState [(t1, v1, d1), (t2, v2, d2), (t3, v3, d3)]).is_on = true ∧
    (runTank cfg initialTankState [(t1, v1, d1), (t2, v2, d2), (t3, v3, d3)]).history =
      [⟨t1, v1, d1⟩, ⟨t2, v2, d2⟩, ⟨t3, v3, d3⟩] ∧
    (runTank cfg initialTankState
      [(t1, v1, d1), (t2, v2, d2), (t3, v3, d3), (t4, v4, d4)]).is_on = true ∧
    (runTank cfg initialTankState
      [(t1, v1, d1), (t2, v2, d2), (t3, v3, d3), (t4, v4, d4)]).history =
      [⟨t1, v1, d1⟩, ⟨t2, v2, d2⟩, ⟨t3, v3, d3⟩, ⟨t4, v4, d4⟩] ∧
    ((runTank cfg initialTankState
      [(t1, v1, d1), (t2, v2, d2), (t3, v3, d3), (t4, v4, d4)]).history.filter
        (fun e => decide (v3 - v3 * (cfg.tol_pct / 100) ≤ e.volume ∧
          e.volume ≤ v3 + v3 * (cfg.tol_pct / 100)))).length = 3 := by
  have hb1 : decide (v3 - v3 * (cfg.tol_pct / 100) ≤ v1 ∧
      v1 ≤ v3 + v3 * (cfg.tol_pct / 100)) = true := decide_eq_true hs1
  have hb2 : decide (v3 - v3 * (cfg.tol_pct / 100) ≤ v2 ∧
      v2 ≤ v3 + v3 * (cfg.tol_pct / 100)) = true := decide_eq_true hs2
  have hb3 : decide (v3 - v3 * (cfg.tol_pct / 100) ≤ v3 ∧
      v3 ≤ v3 + v3 * (cfg.tol_pct / 100)) = true := decide_eq_true hs3
  have hb4 : decide (v3 - v3 * (cfg.tol_pct / 100) ≤ v4 ∧
      v4 ≤ v3 + v3 * (cfg.tol_pct / 100)) = false := decide_eq_false hd4
  -- step 1
  have hs1eq : tankEvaluate cfg initialTankState t1 v1 d1 =
      { is_on := false, history := [⟨t1, v1, d1⟩], last_event_ts := some t1,
        cooldown_until := none, last_seen_pair := some (v1, d1) } := by
    rw [tankEvaluate_step_off cfg initialTankState t1 v1 d1 rfl rfl
      (by simp [initialTankState]) hg1
      (by
        intro e he
        simp [initialTankState] at he
        subst he
        intro hlt
        simp only at hlt
        linarith)]
    simp only [initialTankState]
    simp
    rw [hrep]
    have hle := tankSimilarCount_le_length cfg [(⟨t1, v1, d1⟩ : TankEvent)]
    simp at hle
    omega
  -- step 2
  have hs2eq : tankEvaluate cfg
      { is_on := false, history := [⟨t1, v1, d1⟩], last_event_ts := some t1,
        cooldown_until := none, last_seen_pair := some (v1, d1) } t2 v2 d2 =
      { is_on := false, history := [⟨t1, v1, d1⟩, ⟨t2, v2, d2⟩],
        last_event_ts := some t2, cooldown_until := none,
        last_seen_pair := some (v2, d2) } := by
    rw [tankEvaluate_step_off cfg _ t2 v2 d2 rfl rfl (by simpa using hp1) hg2
      (by
        intro e he
        simp at he
        rcases he with he | he <;> subst he <;> intro hlt <;> simp only at hlt <;> linarith)]
    simp
    rw [hrep]
    have hle := tankSimilarCount_le_length cfg
      [⟨t1, v1, d1⟩, (⟨t2, v2, d2⟩ : TankEvent)]
    simp at hle
    omega
  -- step 3: the three similar refills trigger
  have hcnt3 : tankSimilarCount cfg
      [⟨t1, v1, d1⟩, ⟨t2, v2, d2⟩, (⟨t3, v3, d3⟩ : TankEvent)] = 3 := by
    have hlast : ([⟨t1, v1, d1⟩, ⟨t2, v2, d2⟩, (⟨t3, v3, d3⟩ : TankEvent)]).getLast? =
        some ⟨t3, v3, d3⟩ := rfl
    unfold tankSimilarCount
    rw [hlast]
    simp only [List.filter, hb1, hb2, hb3]
    rfl
  have hs3eq : tankEvaluate cfg
      { is_on := false, history := [⟨t1, v1, d1⟩, ⟨t2, v2, d2⟩],
        last_event_ts := some t2, cooldown_until := none,
        last_seen_pair := some (v2, d2) } t3 v3 d3 =
      { is_on := true, history := [⟨t1, v1, d1⟩, ⟨t2, v2, d2⟩, ⟨t3, v3, d3⟩],
        last_event_ts := some t3, cooldown_until := none,
        last_seen_pair := some (v3, d3) } := by
    rw [tankEvaluate_step_off cfg _ t3 v3 d3 rfl rfl (by simpa using hp2) hg3
      (by
        intro e he
        simp at he
        rcases he with he | he | he <;> subst he <;> intro hlt <;> simp only at hlt <;> linarith)]
    simp
    rw [hrep, hcnt3]
    norm_num
  -- step 4: dissimilar event recorded, trigger state kept
  have hs4eq : tankEvaluate cfg
      { is_on := true, history := [⟨t1, v1, d1⟩, ⟨t2, v2, d2⟩, ⟨t3, v3, d3⟩],
        last_event_ts := some t3, cooldown_until := none,
        last_seen_pair := some (v3, d3) } t4 v4 d4 =
      { is_on := true,
        history := [⟨t1, v1, d1⟩, ⟨t2, v2, d2⟩, ⟨t3, v3, d3⟩, ⟨t4, v4, d4⟩],
        last_event_ts := some t4, cooldown_until := none,
        last_seen_pair := some (v4, d4) } := by
    rw [tankEvaluate_step_on cfg _ t4 v4 d4 rfl rfl (by simpa using hp3) hg4 hclear
      (by
        intro e he
        simp at he
        rcases he with he | he | he | he <;> subst he <;> intro hlt <;> simp only at hlt <;> linarith)]
    simp
  have hrun3 : runTank cfg initialTankState
      [(t1, v1, d1), (t2, v2, d2), (t3, v3, d3)] =
      { is_on := true, history := [⟨t1, v1, d1⟩, ⟨t2, v2, d2⟩, ⟨t3, v3, d3⟩],
        last_event_ts := some t3, cooldown_until := none,
        last_seen_pair := some (v3, d3) } := by
    simp only [runTank, List.foldl_cons, List.foldl_nil]
    rw [hs1eq, hs2eq, hs3eq]
  have hrun4 : runTank cfg initialTankState
      [(t1, v1, d1), (t2, v2, d2), (t3, v3, d3), (t4, v4, d4)] =
      { is_on := true,
        history := [⟨t1, v1, d1⟩, ⟨t2, v2, d2⟩, ⟨t3, v3, d3⟩, ⟨t4, v4, d4⟩],
        last_event_ts := some t4, cooldown_until := none,
        last_seen_pair := some (v4, d4) } := by
    simp only [runTank, List.foldl_cons, List.foldl_nil]
    rw [hs1eq, hs2eq, hs3eq, hs4eq]
  refine ⟨by rw [hrun3], by rw [hrun3], by rw [hrun4], by rw [hrun4], ?_⟩
  rw [hrun4]
  simp only [List.filter, hb1, hb2, hb3, hb4]
  rfl

/-- Witness for C4: volumes 1, 1.02, 0.98 (within 0.98 ± 5%) at t = 0, 100,
200 trigger; a dissimilar volume 5 at t = 300 leaves the detector on. -/
theorem C4_tank_refill_witness :
    (runTank cfgC4 initialTankState
      [(0, 1, 60), (100, 51/50, 61), (200, 49/50, 62)]).is_on = true ∧
    (runTank cfgC4 initialTankState
      [(0, 1, 60), (100, 51/50, 61), (200, 49/50, 62), (300, 5, 63)]).is_on = true ∧
    ((runTank cfgC4 initialTankState
      [(0, 1, 60), (100, 51/50, 61), (200, 49/50, 62), (300, 5, 63)]).history.filter
        (fun e => decide ((49/50 : ℚ) - 49/50 * (cfgC4.tol_pct / 100) ≤ e.volume ∧
          e.volume ≤ 49/50 + 49/50 * (cfgC4.tol_pct / 100)))).length = 3 := by
  have h := C4_tank_refill cfgC4 0 100 200 300 1 (51/50) (49/50) 5 60 61 62 63
    rfl (by with_unfolding_all decide) (by with_unfolding_all decide)
    (by with_unfolding_all decide) (by with_unfolding_all decide)
    (by with_unfolding_all decide) (by with_unfolding_all decide)
    (by with_unfolding_all decide) (by with_unfolding_all decide)
    (by with_unfolding_all decide) (by with_unfolding_all decide)
    (by with_unfolding_all decide) (by with_unfolding_all decide)
    (by with_unfolding_all decide) (by with_unfolding_all decide)
    (by with_unfolding_all decide) (by with_unfolding_all decide)
    (by with_unfolding_all decide) (by with_unfolding_all decide)
  exact ⟨h.1, h.2.2.1, h.2.2.2.2⟩

end WaterMonitor

/-! ## Theorems: engine baseline queries, risk estimator, daily analysis, ingest -/


namespace WaterMonitor

lemma pvarianceQ_nonneg (xs : List ℚ) : 0 ≤ pvarianceQ xs := by
  unfold pvarianceQ
  split_ifs with h
  · exact le_refl 0
  · apply div_nonneg
    · apply List.sum_nonneg
      intro x hx
      simp only [List.mem_map] at hx
      obtain ⟨y, _, rfl⟩ := hx
      positivity
    · positivity

lemma gtMeanPlus3Std_iff (t m v : ℚ) (hv : 0 ≤ v) :
    gtMeanPlus3Std t m v = true ↔ (t : ℝ) > (m : ℝ) + 3 * Real.sqrt (v : ℝ) := by
  unfold gtMeanPlus3Std
  rw [decide_eq_true_eq]
  have hv' : (0 : ℝ) ≤ (v : ℝ) := by exact_mod_cast hv
  constructor
  · rintro ⟨hpos, hsq⟩
    have hpos' : (0 : ℝ) < (t : ℝ) - (m : ℝ) := by exact_mod_cast hpos
    have hsq' : (9 : ℝ) * (v : ℝ) < ((t : ℝ) - (m : ℝ)) ^ 2 := by exact_mod_cast hsq
    have h3 : Real.sqrt (v : ℝ) < ((t : ℝ) - (m : ℝ)) / 3 := by
      rw [show ((t:ℝ) - m) / 3 = ((t:ℝ) - m) * (1/3) by ring]
      rw [Real.sqrt_lt' (by positivity)]
      nlinarith
    nlinarith [Real.sqrt_nonneg (v : ℝ)]
  · intro h
    have hs := Real.sqrt_nonneg (v : ℝ)
    have hpos' : (0 : ℝ) < (t : ℝ) - (m : ℝ) := by nlinarith
    have h3 : Real.sqrt (v : ℝ) < ((t : ℝ) - (m : ℝ)) / 3 := by nlinarith
    have hsq' : (v : ℝ) < (((t : ℝ) - (m : ℝ)) / 3) ^ 2 := by
      rw [← Real.sqrt_lt' (by positivity)] at *
      exact h3
    constructor
    · exact_mod_cast hpos'
    · have : (9 : ℝ) * (v : ℝ) < ((t : ℝ) - (m : ℝ)) ^ 2 := by nlinarith
      exact_mod_cast this


/-- Claim C6: for sensitivity in [0,100] and a not-ready baseline (count < 10
or all percentiles zero), the effective threshold is the floor
`max(5 min, (45 - 25*s/100) min)`, adjusted by context (vacation raised to at
least 45 min, away to at least 35 min, night multiplied by 0.85 and floored at
10 min); the risk is `eff_elapsed / effective_threshold` plus 0.3 under the
drip heuristic (flow in (0, 0.3] and session elapsed at least 10 min); the
leak flag is on exactly when risk is at least 1. -/
theorem C6_risk_fallback (inp : RiskInput)
    (hs0 : 0 ≤ inp.sensitivity) (hs100 : inp.sensitivity ≤ 100)
    (hel : 0 ≤ inp.elapsed) (hfe : 0 ≤ inp.flow_elapsed)
    (hnr : inp.count < 10 ∨ (inp.p90 = 0 ∧ inp.p95 = 0 ∧ inp.p99 = 0)) :
    (leakRisk inp).baseline_ready = decide (inp.count ≥ 10) ∧
    (leakRisk inp).fallback_floor_s =
      max (5 * 60) ((45 - 25 * (inp.sensitivity / 100)) * 60) ∧
    (leakRisk inp).effective_threshold =
      (if inp.occ_class = "vacation" then
        max (max (5 * 60) ((45 - 25 * (inp.sensitivity / 100)) * 60)) (45 * 60)
      else if inp.occ_class = "away" then
        max (max (5 * 60) ((45 - 25 * (inp.sensitivity / 100)) * 60)) (35 * 60)
      else if inp.occ_class = "night" then
        max (max (5 * 60) ((45 - 25 * (inp.sensitivity / 100)) * 60) * (85/100)) (10 * 60)
      else max (5 * 60) ((45 - 25 * (inp.sensitivity / 100)) * 60)) ∧
    0 < (leakRisk inp).effective_threshold ∧
    (leakRisk inp).eff_elapsed =
      (if inp.active = true ∧ inp.elapsed > 0 then inp.elapsed else inp.flow_elapsed) ∧
    (leakRisk inp).risk =
      ((leakRisk inp).eff_elapsed : ℚ) / (leakRisk inp).effective_threshold +
        (if 0 < inp.flow_now ∧ inp.flow_now ≤ 3/10 ∧ inp.elapsed ≥ 10 * 60 then
          3/10 else 0) ∧
    ((leakRisk inp).is_on = true ↔ (leakRisk inp).risk ≥ 1) := by
  have hbase : (if (decide (inp.count ≥ 10)) = true ∧
      (inp.p90 > 0 ∨ inp.p95 > 0 ∨ inp.p99 > 0) then
        interpolateThreshold inp.p90 inp.p95 inp.p99
          (percentileFromSensitivity inp.sensitivity)
      else (0:ℚ)) = 0 := by
    rcases hnr with h | ⟨h90, h95, h99⟩
    · rw [if_neg]
      intro hcontr
      have := of_decide_eq_true hcontr.1
      omega
    · rw [if_neg]
      intro hcontr
      rcases hcontr.2 with h | h | h <;> simp_all
  unfold leakRisk
  dsimp only
  rw [hbase]
  rw [if_neg (lt_irrefl 0)]
  set F := max ((5:ℚ) * 60) ((45 - 25 * (inp.sensitivity / 100)) * 60) with hF
  set A := (if inp.active = true ∧ inp.elapsed > 0 then inp.elapsed
    else inp.flow_elapsed) with hA
  set E := (if inp.occ_class = "vacation" then max F (45 * 60)
    else if inp.occ_class = "away" then max F (35 * 60)
    else if inp.occ_class = "night" then max (F * (85/100)) (10 * 60)
    else F) with hE
  have hFpos : (0:ℚ) < F := by
    rw [hF]
    exact lt_of_lt_of_le (by norm_num) (le_max_left _ _)
  have hEpos : (0:ℚ) < E := by
    rw [hE]
    split_ifs
    · exact lt_of_lt_of_le hFpos (le_max_left _ _)
    · exact lt_of_lt_of_le hFpos (le_max_left _ _)
    · exact lt_of_lt_of_le (by norm_num : (0:ℚ) < 10 * 60) (le_max_right _ _)
    · exact hFpos
  have hA0 : (0:ℤ) ≤ A := by
    rw [hA]
    split <;> omega
  have hrisk0 : (if A > 0 ∧ E > 0 then (A:ℚ)/E else 0) = (A:ℚ)/E := by
    by_cases hp : A > 0
    · rw [if_pos ⟨hp, hEpos⟩]
    · have hz : A = 0 := by omega
      rw [if_neg (fun hc => hp hc.1), hz]
      norm_num
  refine ⟨rfl, rfl, rfl, hEpos, rfl, ?_, ?_⟩
  · rw [hrisk0]
    split_ifs
    · rfl
    · exact (add_zero _).symm
  · exact ⟨of_decide_eq_true, decide_eq_true⟩

/-- Claim C5: every baseline query resolves through the fallback ladder from
most to least specific — exact fine bucket, fine bucket with people_bin
wildcarded (merged over all people-bin variants), coarse `hour|day_type`
bucket, hour with day_type wildcarded (weekday+weekend merged), global merge —
each rung used exactly when all finer rungs are empty; and a bucket with fewer
than 10 samples is treated as unready by the caller: `baseline_ready` is
false and the risk evaluation is independent of that bucket's percentiles,
falling back to the floor instead. -/
theorem C5_fallback_ladder :
    (∀ (cs : CtxStats) (hs : HourStats) (hour : ℤ) (day_type : String)
      (occ people : Option String),
      getContextBucketStats cs hs hour day_type occ people =
        (if ((dictGet cs (hour, day_type, orDefault occ "unknown",
            orDefault people "?")).getD ([], [])).1 ≠ [] then
          makeStats ((dictGet cs (hour, day_type, orDefault occ "unknown",
              orDefault people "?")).getD ([], [])).1
            (toString hour ++ "|" ++ day_type ++ "|" ++ orDefault occ "unknown" ++
              "|" ++ orDefault people "?") 1
        else if (peopleBins.map (fun b =>
            ((dictGet cs (hour, day_type, orDefault occ "unknown", b)).getD
              ([], [])).1)).foldr (· ++ ·) [] ≠ [] then
          makeStats ((peopleBins.map (fun b =>
              ((dictGet cs (hour, day_type, orDefault occ "unknown", b)).getD
                ([], [])).1)).foldr (· ++ ·) [])
            (toString hour ++ "|" ++ day_type ++ "|" ++ orDefault occ "unknown" ++ "|*") 2
        else if ((dictGet hs (hour, day_type)).getD ([], [])).1 ≠ [] then
          { makeStats ((dictGet hs (hour, day_type)).getD ([], [])).1
              (toString hour ++ "|" ++ day_type) 1 with level := 3 }
        else if ((dictGet hs (hour, "weekday")).getD ([], [])).1 ++
            ((dictGet hs (hour, "weekend")).getD ([], [])).1 ≠ [] then
          { makeStats (((dictGet hs (hour, "weekday")).getD ([], [])).1 ++
              ((dictGet hs (hour, "weekend")).getD ([], [])).1)
              (toString hour ++ "|*") 2 with level := 3 }
        else
          { makeStats (hs.foldr (fun p acc => p.2.1 ++ acc) []) "*" 3 with
              level := 3 })) ∧
    (∀ (inp : RiskInput) (p90' p95' p99' : ℚ), inp.count < 10 →
      (leakRisk inp).baseline_ready = false ∧
      leakRisk { inp with p90 := p90', p95 := p95', p99 := p99' } = leakRisk inp) := by
  constructor
  · intro cs hs hour day_type occ people
    unfold getContextBucketStats getSimpleBucketStats
    dsimp only
    split_ifs <;> simp_all [makeStats]
  · intro inp p90' p95' p99' hcount
    have hdec : decide (inp.count ≥ 10) = false := by
      rw [decide_eq_false_iff_not]
      omega
    constructor
    · unfold leakRisk
      dsimp only
      exact hdec
    · unfold leakRisk
      dsimp only
      rw [hdec]
      simp


/-- Claim C7: the daily baseline is the mean and population standard
deviation of the stored total volumes of days 2 through 8 back (skipping the
day being evaluated, using only already-computed summaries); the 3-sigma
threshold is defined iff the standard deviation is positive (variance > 0,
i.e. `Real.sqrt baseline_var > 0`), and the anomaly flag is set exactly when
the threshold is defined and `total_volume > mean + 3 * std` over ℝ;
otherwise the anomaly is False. -/
theorem C7_daily_baseline (daily : List (ℤ × ℚ)) (today : ℤ) (total_vol : ℚ) :
    (analyzeDailyBaseline daily today total_vol).last7 =
      (List.range 7).filterMap (fun i => dictGet daily (today - ((i : ℤ) + 2))) ∧
    (analyzeDailyBaseline daily today total_vol).baseline_mean =
      listMean ((analyzeDailyBaseline daily today total_vol).last7) ∧
    (analyzeDailyBaseline daily today total_vol).baseline_var =
      (if 2 ≤ (analyzeDailyBaseline daily today total_vol).last7.length then
        pvarianceQ ((analyzeDailyBaseline daily today total_vol).last7) else 0) ∧
    ((analyzeDailyBaseline daily today total_vol).threshold_defined = true ↔
      0 < Real.sqrt (((analyzeDailyBaseline daily today total_vol).baseline_var : ℚ) : ℝ)) ∧
    ((analyzeDailyBaseline daily today total_vol).anomaly = true ↔
      ((analyzeDailyBaseline daily today total_vol).threshold_defined = true ∧
        (total_vol : ℝ) >
          (((analyzeDailyBaseline daily today total_vol).baseline_mean : ℚ) : ℝ) +
            3 * Real.sqrt
              (((analyzeDailyBaseline daily today total_vol).baseline_var : ℚ) : ℝ))) := by
  have hvar : (analyzeDailyBaseline daily today total_vol).baseline_var =
      (if 2 ≤ (analyzeDailyBaseline daily today total_vol).last7.length then
        pvarianceQ ((analyzeDailyBaseline daily today total_vol).last7) else 0) := by
    unfold analyzeDailyBaseline
    dsimp only
  have hvnn : 0 ≤ (analyzeDailyBaseline daily today total_vol).baseline_var := by
    rw [hvar]
    split_ifs
    · exact pvarianceQ_nonneg _
    · exact le_refl 0
  refine ⟨rfl, rfl, hvar, ?_, ?_⟩
  · rw [Real.sqrt_pos]
    unfold analyzeDailyBaseline
    dsimp only
    rw [decide_eq_true_eq]
    exact ⟨fun h => by exact_mod_cast h, fun h => by exact_mod_cast h⟩
  · have hanom : (analyzeDailyBaseline daily today total_vol).anomaly =
        ((analyzeDailyBaseline daily today total_vol).threshold_defined &&
          gtMeanPlus3Std total_vol
            ((analyzeDailyBaseline daily today total_vol).baseline_mean)
            ((analyzeDailyBaseline daily today total_vol).baseline_var)) := rfl
    rw [hanom, Bool.and_eq_true]
    rw [gtMeanPlus3Std_iff _ _ _ hvnn]


lemma ingestState_guard (es : EngineState) (inp : IngestInput) (now : ℚ)
    (hour : ℤ) (day_type : String) (occ_raw occ_class people_bin : Option String)
    (hg : volEff inp ≤ 0 ∨ inp.last_session_duration ≤ 0) :
    ingestState es inp now hour day_type occ_raw occ_class people_bin = es := by
  unfold ingestState
  rw [if_pos hg]

lemma ingestState_dedup (es : EngineState) (inp : IngestInput) (now : ℚ)
    (hour : ℤ) (day_type : String) (occ_raw occ_class people_bin : Option String)
    (hns : ¬(volEff inp ≤ 0 ∨ inp.last_session_duration ≤ 0))
    (hsig : es.last_session_sig =
      some (pyRoundTo (volEff inp) 4, inp.last_session_duration)) :
    ingestState es inp now hour day_type occ_raw occ_class people_bin = es := by
  unfold ingestState
  rw [if_neg hns]
  dsimp only
  rw [if_pos hsig]

lemma ingestState_append (es : EngineState) (inp : IngestInput) (now : ℚ)
    (hour : ℤ) (day_type : String) (occ_raw occ_class people_bin : Option String)
    (hns : ¬(volEff inp ≤ 0 ∨ inp.last_session_duration ≤ 0))
    (hsig : es.last_session_sig ≠
      some (pyRoundTo (volEff inp) 4, inp.last_session_duration)) :
    ingestState es inp now hour day_type occ_raw occ_class people_bin =
      { es with
        last_session_sig :=
          some (pyRoundTo (volEff inp) 4, inp.last_session_duration),
        sessions :=
          (if (es.sessions ++ [ingestRecord inp now occ_raw occ_class people_bin]).length > 5000 then
            (es.sessions ++ [ingestRecord inp now occ_raw occ_class people_bin]).drop
              ((es.sessions ++ [ingestRecord inp now occ_raw occ_class people_bin]).length - 5000)
          else es.sessions ++ [ingestRecord inp now occ_raw occ_class people_bin]),
        hourly_stats := updateHourlyStats es.hourly_stats hour day_type
          (ingestRecord inp now occ_raw occ_class people_bin).duration_s
          (ingestRecord inp now occ_raw occ_class people_bin).avg_flow,
        context_stats := updateContextStats es.context_stats hour day_type
          occ_class people_bin
          (ingestRecord inp now occ_raw occ_class people_bin).duration_s
          (ingestRecord inp now occ_raw occ_class people_bin).avg_flow } := by
  unfold ingestState
  rw [if_neg hns]
  dsimp only
  rw [if_neg hsig]

/-- Claim C10: the engine records a session only when its effective volume
(reported volume minus the synthetic contribution, both floored at 0) is
positive and its duration is positive, and only when the rounded
`(volume, duration)` signature differs from the previously recorded one;
otherwise state (sessions, baseline stats, signature) is unchanged. When it
does record, exactly one record is appended (with FIFO capping at 5000) and
the hourly/context baseline stats are fed exactly that record; re-ingesting
the same snapshot is a no-op, so repeated reads never double-count. -/
theorem C10_ingest (es : EngineState) (inp : IngestInput) (now : ℚ) (hour : ℤ)
    (day_type : String) (occ_raw occ_class people_bin : Option String) :
    (volEff inp ≤ 0 ∨ inp.last_session_duration ≤ 0 →
      ingestState es inp now hour day_type occ_raw occ_class people_bin = es) ∧
    (¬(volEff inp ≤ 0 ∨ inp.last_session_duration ≤ 0) →
      es.last_session_sig =
        some (pyRoundTo (volEff inp) 4, inp.last_session_duration) →
      ingestState es inp now hour day_type occ_raw occ_class people_bin = es) ∧
    (¬(volEff inp ≤ 0 ∨ inp.last_session_duration ≤ 0) →
      es.last_session_sig ≠
        some (pyRoundTo (volEff inp) 4, inp.last_session_duration) →
      0 < volEff inp ∧ 0 < inp.last_session_duration ∧
      (ingestState es inp now hour day_type occ_raw occ_class people_bin).sessions =
        (if (es.sessions ++ [ingestRecord inp now occ_raw occ_class people_bin]).length > 5000 then
          (es.sessions ++ [ingestRecord inp now occ_raw occ_class people_bin]).drop
            ((es.sessions ++ [ingestRecord inp now occ_raw occ_class people_bin]).length - 5000)
        else es.sessions ++ [ingestRecord inp now occ_raw occ_class people_bin]) ∧
      (ingestState es inp now hour day_type occ_raw occ_class people_bin).hourly_stats =
        updateHourlyStats es.hourly_stats hour day_type
          (ingestRecord inp now occ_raw occ_class people_bin).duration_s
          (ingestRecord inp now occ_raw occ_class people_bin).avg_flow ∧
      (ingestState es inp now hour day_type occ_raw occ_class people_bin).context_stats =
        updateContextStats es.context_stats hour day_type occ_class people_bin
          (ingestRecord inp now occ_raw occ_class people_bin).duration_s
          (ingestRecord inp now occ_raw occ_class people_bin).avg_flow ∧
      (ingestState es inp now hour day_type occ_raw occ_class people_bin).last_session_sig =
        some (pyRoundTo (volEff inp) 4, inp.last_session_duration)) ∧
    (∀ (now2 : ℚ) (hour2 : ℤ) (day_type2 : String)
      (or2 oc2 pb2 : Option String),
      ingestState (ingestState es inp now hour day_type occ_raw occ_class people_bin)
        inp now2 hour2 day_type2 or2 oc2 pb2 =
        ingestState es inp now hour day_type occ_raw occ_class people_bin) := by
  refine ⟨?_, ?_, ?_, ?_⟩
  · intro hg
    exact ingestState_guard es inp now hour day_type occ_raw occ_class people_bin hg
  · intro hns hsig
    exact ingestState_dedup es inp now hour day_type occ_raw occ_class people_bin hns hsig
  · intro hns hsig
    push_neg at hns
    refine ⟨hns.1, hns.2, ?_, ?_, ?_, ?_⟩ <;>
      rw [ingestState_append es inp now hour day_type occ_raw occ_class people_bin
        (by push_neg; exact hns) hsig]
  · intro now2 hour2 day_type2 or2 oc2 pb2
    by_cases hg : volEff inp ≤ 0 ∨ inp.last_session_duration ≤ 0
    · rw [ingestState_guard es inp now hour day_type occ_raw occ_class people_bin hg,
        ingestState_guard es inp now2 hour2 day_type2 or2 oc2 pb2 hg]
    · by_cases hsig : es.last_session_sig =
          some (pyRoundTo (volEff inp) 4, inp.last_session_duration)
      · rw [ingestState_dedup es inp now hour day_type occ_raw occ_class people_bin hg hsig,
          ingestState_dedup es inp now2 hour2 day_type2 or2 oc2 pb2 hg hsig]
      · rw [ingestState_append es inp now hour day_type occ_raw occ_class people_bin hg hsig]
        apply ingestState_dedup _ inp now2 hour2 day_type2 or2 oc2 pb2 hg
        rfl


/-- Witness for C6: night occupancy, sensitivity 50, empty baseline
(count 0), 30 minutes of active session at a 0.2 flow: the threshold is the
night-adjusted fallback floor 1657.5 s and the detector flags a leak. -/
theorem C6_risk_fallback_witness :
    (leakRisk inpC6).effective_threshold = 3315/2 ∧
    (leakRisk inpC6).is_on = true := by
  have h := C6_risk_fallback inpC6 (by norm_num [inpC6]) (by norm_num [inpC6])
    (by norm_num [inpC6]) (by norm_num [inpC6]) (Or.inl (by norm_num [inpC6]))
  have hthr : (leakRisk inpC6).effective_threshold = 3315/2 := by
    rw [h.2.2.1]
    simp only [inpC6]
    rw [show ((45:ℚ) - 25 * (50/100)) * 60 = 1950 by norm_num]
    rw [max_eq_right (by norm_num : (5:ℚ) * 60 ≤ 1950)]
    rw [show (1950:ℚ) * (85/100) = 3315/2 by norm_num]
    rw [max_eq_left (by norm_num : (10:ℚ) * 60 ≤ 3315/2)]
    rw [if_neg (by decide), if_neg (by decide), if_pos trivial]
  refine ⟨hthr, ?_⟩
  apply (h.2.2.2.2.2.2).mpr
  rw [h.2.2.2.2.2.1, hthr, h.2.2.2.2.1]
  simp only [inpC6]
  rw [if_pos (by norm_num), if_pos (by norm_num)]
  norm_num

end WaterMonitor
